import Mathlib

set_option linter.unusedVariables false

/-
  Shallow embedding of `mcp_service.py`: an MCP tool-orchestration service
  that spawns tool-server processes, speaks newline-delimited JSON-RPC with
  each over stdin/stdout, registers discovered tools, and routes tool calls.

  Python dictionaries are modelled as insertion-ordered association lists
  (`dictSet` overwrites in place, preserving position, and appends new keys
  at the end, matching CPython dict semantics).  JSON values travelling over
  the wire are modelled by the `Json` inductive; `json.dumps` is modelled by
  `dumps` below (default separators, string escaping).  Process pipes are
  modelled explicitly: bytes written to a child's stdin are recorded in
  `stdinWrites`, and the child's stdout is a script of already-parsed
  messages (`Option Json`: `none` stands for a line `json.loads` rejects or
  end-of-stream, both of which make `_read_response` return `None`).
-/

/-- JSON values as they travel over the line protocol. -/
inductive Json where
  | null
  | bool (b : Bool)
  | num (n : Int)
  | str (s : String)
  | arr (elems : List Json)
  | obj (fields : List (String × Json))

/-- Lookup in a Python-style dict modelled as an association list. -/
def dictLookup {κ α : Type} [DecidableEq κ] (d : List (κ × α)) (k : κ) : Option α :=
  match d with
  | [] => none
  | (k1, v) :: rest => if k1 = k then some v else dictLookup rest k

/-- Assignment `d[k] = v` on a Python-style dict: an existing key is
updated in place (its position is preserved); a new key is appended. -/
def dictSet {κ α : Type} [DecidableEq κ] (d : List (κ × α)) (k : κ) (v : α) : List (κ × α) :=
  match d with
  | [] => [(k, v)]
  | (k1, v1) :: rest => if k1 = k then (k, v) :: rest else (k1, v1) :: dictSet rest k v

theorem dictLookup_dictSet_self {κ α : Type} [DecidableEq κ]
    (d : List (κ × α)) (k : κ) (v : α) : dictLookup (dictSet d k v) k = some v := by
  induction d with
  | nil => simp [dictSet, dictLookup]
  | cons p rest ih =>
    obtain ⟨k1, v1⟩ := p
    by_cases h : k1 = k <;> simp [dictSet, dictLookup, h, ih]

theorem dictLookup_dictSet_ne {κ α : Type} [DecidableEq κ]
    (d : List (κ × α)) (k1 k2 : κ) (v : α) (h : k1 ≠ k2) :
    dictLookup (dictSet d k1 v) k2 = dictLookup d k2 := by
  induction d with
  | nil => simp [dictSet, dictLookup, h]
  | cons p rest ih =>
    obtain ⟨ka, va⟩ := p
    by_cases hk : ka = k1
    · subst hk; simp [dictSet, dictLookup, h]
    · simp [dictSet, dictLookup, hk, ih]

/-- Hexadecimal digit characters, used for control-character escapes. -/
def hexDigits : List Char := "0123456789abcdef".toList

/-- Hexadecimal digit for `n % 16`. -/
def hexDigit (n : Nat) : Char := hexDigits.getD (n % 16) '0'

/-- Escape of one character inside a JSON string literal, as `json.dumps`
produces it (quote, backslash and control characters are escaped; other
characters pass through). -/
def escapeChar (c : Char) : List Char :=
  if c = '"' then ['\\', '"']
  else if c = '\\' then ['\\', '\\']
  else if c = '\n' then ['\\', 'n']
  else if c = '\t' then ['\\', 't']
  else if c = '\r' then ['\\', 'r']
  else if c.toNat < 32 then ['\\', 'u', '0', '0', hexDigit (c.toNat / 16), hexDigit (c.toNat % 16)]
  else [c]

/-- Escape every character of a JSON string body. -/
def escapeList : List Char → List Char
  | [] => []
  | c :: rest => escapeChar c ++ escapeList rest

/-- Decimal digits of a natural number, most significant first. -/
def natToDigits (n : Nat) : List Char :=
  if n < 10 then [hexDigit n]
  else natToDigits (n / 10) ++ [hexDigit (n % 10)]
decreasing_by
  exact Nat.div_lt_self (by omega) (by omega)

/-- Decimal rendering of an integer. -/
def intChars (i : Int) : List Char :=
  if i < 0 then '-' :: natToDigits i.natAbs else natToDigits i.natAbs

mutual

/-- Characters of `json.dumps(j)` with the default separators. -/
def dumpsChars : Json → List Char
  | .null => ['n', 'u', 'l', 'l']
  | .bool b => if b then ['t', 'r', 'u', 'e'] else ['f', 'a', 'l', 's', 'e']
  | .num i => intChars i
  | .str s => '"' :: escapeList s.toList ++ ['"']
  | .arr xs => '[' :: dumpsArr xs ++ [']']
  | .obj fs => '\x7b' :: dumpsObj fs ++ ['\x7d']

/-- Comma-separated serializations of array elements. -/
def dumpsArr : List Json → List Char
  | [] => []
  | x :: rest =>
    dumpsChars x ++ (if rest.isEmpty then [] else [',', ' ']) ++ dumpsArr rest

/-- Comma-separated `"key": value` serializations of object members. -/
def dumpsObj : List (String × Json) → List Char
  | [] => []
  | (k, v) :: rest =>
    ('"' :: escapeList k.toList ++ ['"', ':', ' '] ++ dumpsChars v)
      ++ (if rest.isEmpty then [] else [',', ' ']) ++ dumpsObj rest

end

/-- The single line of text `json.dumps(request)` produces. -/
def dumps (j : Json) : String := (dumpsChars j).asString

/-- Python truthiness of a decoded JSON value (`if response and ...`):
`None`, `False`, `0`, `""`, `[]` and `\x7b\x7d` are falsy. -/
def jsonTruthy : Json → Bool
  | .null => false
  | .bool b => b
  | .num i => decide (i ≠ 0)
  | .str s => decide (s ≠ "")
  | .arr xs => !xs.isEmpty
  | .obj fs => !fs.isEmpty

/-- Membership test `k in response` for a decoded JSON-RPC message
(messages on this protocol are JSON objects; key membership). -/
def hasKey (j : Json) (k : String) : Bool :=
  match j with
  | .obj fs => (dictLookup fs k).isSome
  | _ => false

/-- Subscript access `response[k]` on a decoded JSON-RPC message, used
only after `hasKey` has been checked. -/
def jsonGetD (j : Json) (k : String) : Json :=
  match j with
  | .obj fs => (dictLookup fs k).getD .null
  | _ => .null

/-- One registry entry of `MCPServerClient.tools`:
`\x7b"server": ..., "name": ..., "description": ..., "parameters": ...\x7d`.
`description` and `parameters` hold whatever JSON the server sent
(defaults `""` and `\x7b\x7d`, from `tool.get(...)`). -/
structure ToolInfo where
  server : String
  name : String
  description : Json
  parameters : Json

/-- The pipes of one child process: the byte strings written to its stdin
(each element one `write` call), and the stdout script — the sequence of
parsed messages `_read_response` will yield, where `none` stands for a
line `json.loads` rejects or for end-of-stream (both make
`_read_response` return `None`). -/
structure ProcessPipes where
  stdinWrites : List String := []
  stdoutMsgs : List (Option Json) := []

/-- State of one `MCPServerClient`: `servers` (assigned in `__init__`,
never written afterwards), the tool registry `tools`, and `processes`
mapping a server name to the identity (pid) of its process object.  The
process objects themselves live in `heap` (pid → pipes): mutating a
process's pipes does not change the `processes` dict, exactly as in
Python, where the dict holds references.  `nextPid` numbers freshly
spawned processes. -/
structure ClientState where
  servers : List (String × Json) := []
  tools : List (String × ToolInfo) := []
  processes : List (String × Nat) := []
  heap : List (Nat × ProcessPipes) := []
  nextPid : Nat := 0

/-- `MCPServerClient.__init__`: empty dicts. -/
def MCPServerClient.new : ClientState := {}

/-- `_send_request`: `json.dumps(request) + "\n"` written as one chunk. -/
def sendRequest (p : ProcessPipes) (request : Json) : ProcessPipes :=
  { p with stdinWrites := p.stdinWrites ++ [dumps request ++ "\n"] }

/-- Write a request to the process identified by `pid` (the heap cell is
updated; a pid absent from the heap is treated as fresh pipes, which
never occurs in reachable states). -/
def sendToPid (c : ClientState) (pid : Nat) (request : Json) : ClientState :=
  let p := (dictLookup c.heap pid).getD {}
  { c with heap := dictSet c.heap pid (sendRequest p request) }

/-- `_read_response` on the process identified by `pid`: pop the next
parsed message of its stdout script; an exhausted script is end-of-stream
(`readline` returns `b""`), yielding `None`. -/
def readFromPid (c : ClientState) (pid : Nat) : Option Json × ClientState :=
  match ((dictLookup c.heap pid).getD {}).stdoutMsgs with
  | [] => (none, c)
  | m :: rest =>
    (m, { c with heap := dictSet c.heap pid
                   { stdinWrites := ((dictLookup c.heap pid).getD {}).stdinWrites,
                     stdoutMsgs := rest } })

/-- The `initialize` request (hardcoded id 1) sent by `_initialize_server`. -/
def initRequest : Json :=
  .obj [("jsonrpc", .str "2.0"), ("id", .num 1), ("method", .str "initialize"),
        ("params", .obj [("protocolVersion", .str "2024-11-05"),
                         ("capabilities", .obj [("tools", .obj [])]),
                         ("clientInfo", .obj [("name", .str "realtime-client"),
                                              ("version", .str "1.0.0")])])]

/-- The `tools/list` request (hardcoded id 2) sent by `_initialize_server`. -/
def toolsListRequest : Json :=
  .obj [("jsonrpc", .str "2.0"), ("id", .num 2), ("method", .str "tools/list"),
        ("params", .obj [])]

/-- The `tools/call` request built by `call_tool`: the id is the hardcoded
literal 3 for every call. -/
def callToolRequest (tool_name : String) (parameters : Json) : Json :=
  .obj [("jsonrpc", .str "2.0"), ("id", .num 3), ("method", .str "tools/call"),
        ("params", .obj [("name", .str tool_name), ("arguments", parameters)])]

/-- The exceptions `call_tool` raises (all plain `Exception`s in the code),
plus `typeError` for the `TypeError` Python raises when
`result["_provenance"] = ...` is attempted on a non-dict result. -/
inductive CallError where
  | toolNotFound (tool_name : String)
  | serverNotRunning (server_name : String)
  | toolCallError (err : Json)
  | noResponse
  | typeError

/-- `str(e)` for each exception raised by `call_tool` (the message of the
JSON-RPC error object is rendered with `dumps`). -/
def errMsg : CallError → String
  | .toolNotFound n => "Tool " ++ n ++ " not found"
  | .serverNotRunning s => "Server " ++ s ++ " not running"
  | .toolCallError e => "Tool call error: " ++ dumps e
  | .noResponse => "No response from tool call"
  | .typeError => "TypeError"

/-- `MCPServerClient.call_tool(tool_name, parameters, call_id)`.  The
`call_id` argument is accepted and unused, as in the code.  `trace_id`
models the fresh `str(uuid.uuid4())` the code mints for the call.  The
returned state reflects the bytes written to the owning server's stdin
and the message consumed from its stdout; exceptions are the `.error`
branch (re-raised by the code after logging). -/
def MCPServerClient.call_tool (c : ClientState) (tool_name : String) (parameters : Json)
    (call_id : String) (trace_id : String) : Except CallError Json × ClientState :=
  match dictLookup c.tools tool_name with
  | none => (.error (.toolNotFound tool_name), c)
  | some tool_info =>
    match dictLookup c.processes tool_info.server with
    | none => (.error (.serverNotRunning tool_info.server), c)
    | some pid =>
      let request := callToolRequest tool_name parameters
      let c1 := sendToPid c pid request
      let (response, c2) := readFromPid c1 pid
      match response with
      | none => (.error .noResponse, c2)
      | some r =>
        if jsonTruthy r && hasKey r "result" then
          match jsonGetD r "result" with
          | .obj resFields =>
            (.ok (.obj (dictSet resFields "_provenance"
              (.obj [("trace_id", .str trace_id),
                     ("server", .str tool_info.server),
                     ("tool", .str tool_name)]))), c2)
          | _ => (.error .typeError, c2)
        else if jsonTruthy r && hasKey r "error" then
          (.error (.toolCallError (jsonGetD r "error")), c2)
        else
          (.error .noResponse, c2)

/-- The registration loop of `_initialize_server` over
`tools_response["result"].get("tools", [])`: each dict element with a
truthy (non-empty) string `name` is assigned into the registry —
`self.tools[tool_name] = ...` — overwriting any entry of the same name; a
falsy or missing name is skipped; a non-dict element raises
`AttributeError`, which aborts the loop (the handler swallows it,
keeping the registrations already made). -/
def registerLoop (server_name : String) (ts : List Json)
    (tools : List (String × ToolInfo)) : List (String × ToolInfo) :=
  match ts with
  | [] => tools
  | .obj fields :: rest =>
    let tools1 :=
      match dictLookup fields "name" with
      | some (.str s) =>
        if s = "" then tools
        else dictSet tools s
          { server := server_name, name := s,
            description := (dictLookup fields "description").getD (.str ""),
            parameters := (dictLookup fields "inputSchema").getD (.obj []) }
      | _ => tools
    registerLoop server_name rest tools1
  | _ :: _ => tools

/-- `_initialize_server`: send `initialize`, read; on a truthy response
carrying `result`, send `tools/list`, read, and register the returned
tools.  Every failure is caught and swallowed (the function never
raises), leaving whatever registrations were already made. -/
def MCPServerClient.initialize_server (c : ClientState) (server_name : String)
    (pid : Nat) : ClientState :=
  let c1 := sendToPid c pid initRequest
  let (response, c2) := readFromPid c1 pid
  match response with
  | none => c2
  | some r =>
    if jsonTruthy r && hasKey r "result" then
      let c3 := sendToPid c2 pid toolsListRequest
      let (tresponse, c4) := readFromPid c3 pid
      match tresponse with
      | none => c4
      | some tr =>
        if jsonTruthy tr && hasKey tr "result" then
          match jsonGetD tr "result" with
          | .obj resFields =>
            match dictLookup resFields "tools" with
            | some (.arr ts) => { c4 with tools := registerLoop server_name ts c4.tools }
            | some _ => c4
            | none => c4
          | _ => c4
        else c4
    else c2

/-- Environment of one configured server: whether
`asyncio.create_subprocess_exec` succeeds, and, if it does, the stdout
script of the spawned process (the command and args of the config only
determine this behaviour, so the config is modelled by it directly). -/
structure ServerBehavior where
  spawns : Bool
  stdout : List (Option Json) := []

/-- `MCPServerClient.start_server`: spawn the process (a spawn failure is
logged and re-raised — the `.error` branch — before `self.processes` is
touched), record it under `server_name`, then run the handshake, which
never raises. -/
def MCPServerClient.start_server (c : ClientState) (server_name : String)
    (b : ServerBehavior) : Except Unit ClientState :=
  if b.spawns then
    let pid := c.nextPid
    let c1 : ClientState :=
      { c with processes := dictSet c.processes server_name pid,
               heap := dictSet c.heap pid { stdinWrites := [], stdoutMsgs := b.stdout },
               nextPid := pid + 1 }
    .ok (MCPServerClient.initialize_server c1 server_name pid)
  else .error ()

/-- `MCPServerClient.get_tools_for_openai`: one
`\x7b name, description, parameters \x7d` object per registry entry, in
registry (insertion) order. -/
def MCPServerClient.get_tools_for_openai (c : ClientState) : List Json :=
  c.tools.map fun kv =>
    .obj [("name", .str kv.1), ("description", kv.2.description),
          ("parameters", kv.2.parameters)]

/-- `MCPServerClient.shutdown`: terminate every tracked process
(termination failures are caught and logged, never raised), then clear
`processes` and `tools`.  Process termination itself is an external
effect on the child and does not change the client's dicts. -/
def MCPServerClient.shutdown (c : ClientState) : ClientState :=
  { c with processes := [], tools := [] }

/-- State of one `MCPService`: the owned client and the `initialized`
flag. -/
structure ServiceState where
  client : ClientState := {}
  initialized : Bool := false

/-- `MCPService.__init__`: a fresh client, not yet initialized. -/
def MCPService.new : ServiceState := {}

/-- The `for server_name, server_config in config.items()` loop of
`MCPService.initialize`: start each server in order.  A spawn failure
re-raised by `start_server` propagates out of the loop immediately — the
`.error` branch, carrying the client state at that point (servers later
in the config are never attempted). -/
def startAll (c : ClientState) (config : List (String × ServerBehavior)) :
    Except ClientState ClientState :=
  match config with
  | [] => .ok c
  | (server_name, b) :: rest =>
    match MCPServerClient.start_server c server_name b with
    | .ok c1 => startAll c1 rest
    | .error _ => .error c

/-- `MCPService.initialize`: a no-op when already initialized; otherwise
start every configured server in order and set `initialized`.  The
hardcoded config dict of the code is the `config` argument (name →
behaviour of the configured command); an exception escaping the loop
propagates out of `initialize` — the `.error` branch, with `initialized`
still false. -/
def MCPService.initializeServers (st : ServiceState)
    (config : List (String × ServerBehavior)) : Except ServiceState ServiceState :=
  if st.initialized then .ok st
  else
    match startAll st.client config with
    | .ok c => .ok { client := c, initialized := true }
    | .error c => .error { client := c, initialized := false }

/-- `MCPService.get_tool_response`: when not yet initialized, run
`initialize` first — outside the `try`, so an exception it raises
propagates (the `.error` branch).  Then `call_tool`; its exceptions are
caught and turned into the structured `\x7b"error": str(e)\x7d` result.
`trace_id` models the uuid `call_tool` mints. -/
def MCPService.get_tool_response (st : ServiceState)
    (config : List (String × ServerBehavior)) (tool_name : String)
    (parameters : Json) (call_id : String) (trace_id : String) :
    Except ServiceState (Json × ServiceState) :=
  match (if st.initialized then .ok st else MCPService.initializeServers st config) with
  | .error st1 => .error st1
  | .ok st1 =>
    match MCPServerClient.call_tool st1.client tool_name parameters call_id trace_id with
    | (.ok result, c) => .ok (result, { st1 with client := c })
    | (.error e, c) => .ok (.obj [("error", .str (errMsg e))], { st1 with client := c })

/-- `MCPService.get_tools_for_openai`: empty before initialization,
otherwise the client's catalogue. -/
def MCPService.get_tools_for_openai (st : ServiceState) : List Json :=
  if st.initialized then MCPServerClient.get_tools_for_openai st.client else []

/-- `MCPService.shutdown`: shut the client down and clear the flag. -/
def MCPService.shutdown (st : ServiceState) : ServiceState :=
  { client := MCPServerClient.shutdown st.client, initialized := false }

theorem hexDigits_getD_ne_newline (m : Nat) (h : m < 16) :
    hexDigits.getD m '0' ≠ '\n' := by
  interval_cases m <;> decide

theorem hexDigit_ne_newline (n : Nat) : hexDigit n ≠ '\n' := by
  unfold hexDigit
  exact hexDigits_getD_ne_newline (n % 16) (Nat.mod_lt n (by omega))

theorem escapeChar_ne_newline (c x : Char) (hx : x ∈ escapeChar c) : x ≠ '\n' := by
  unfold escapeChar at hx
  split_ifs at hx with h1 h2 h3 h4 h5 h6
  · fin_cases hx <;> decide
  · fin_cases hx <;> decide
  · fin_cases hx <;> decide
  · fin_cases hx <;> decide
  · fin_cases hx <;> decide
  · fin_cases hx <;> first | decide | exact hexDigit_ne_newline _
  · fin_cases hx; exact h3

theorem escapeList_ne_newline (l : List Char) (x : Char) (hx : x ∈ escapeList l) :
    x ≠ '\n' := by
  induction l with
  | nil => simp [escapeList] at hx
  | cons c rest ih =>
    rw [escapeList, List.mem_append] at hx
    rcases hx with hx | hx
    · exact escapeChar_ne_newline c x hx
    · exact ih hx

theorem natToDigits_ne_newline (n : Nat) : ∀ x ∈ natToDigits n, x ≠ '\n' := by
  induction n using Nat.strong_induction_on with
  | _ n ih =>
    intro x hx
    rw [natToDigits] at hx
    split at hx
    · simp only [List.mem_cons, List.not_mem_nil, or_false] at hx
      rw [hx]; exact hexDigit_ne_newline _
    · rw [List.mem_append] at hx
      rcases hx with hx | hx
      · exact ih (n / 10) (Nat.div_lt_self (by omega) (by omega)) x hx
      · simp only [List.mem_cons, List.not_mem_nil, or_false] at hx
        rw [hx]; exact hexDigit_ne_newline _

theorem intChars_ne_newline (i : Int) : ∀ x ∈ intChars i, x ≠ '\n' := by
  intro x hx
  unfold intChars at hx
  split at hx
  · rcases List.mem_cons.mp hx with hx | hx
    · simp [hx]
    · exact natToDigits_ne_newline _ x hx
  · exact natToDigits_ne_newline _ x hx

theorem dumpsArr_ne_newline (xs : List Json)
    (h : ∀ j ∈ xs, ∀ x ∈ dumpsChars j, x ≠ '\n') :
    ∀ x ∈ dumpsArr xs, x ≠ '\n' := by
  induction xs with
  | nil => intro x hx; simp [dumpsArr] at hx
  | cons j rest ih =>
    intro x hx
    rw [dumpsArr] at hx
    rw [List.mem_append, List.mem_append] at hx
    rcases hx with (hx | hx) | hx
    · exact h j (List.mem_cons_self j rest) x hx
    · split at hx
      · simp at hx
      · fin_cases hx <;> decide
    · exact ih (fun j2 hj2 => h j2 (List.mem_cons_of_mem j hj2)) x hx

theorem dumpsObj_ne_newline (fs : List (String × Json))
    (h : ∀ kv ∈ fs, ∀ x ∈ dumpsChars kv.2, x ≠ '\n') :
    ∀ x ∈ dumpsObj fs, x ≠ '\n' := by
  induction fs with
  | nil => intro x hx; simp [dumpsObj] at hx
  | cons kv rest ih =>
    obtain ⟨k, v⟩ := kv
    intro x hx
    rw [dumpsObj] at hx
    rw [List.mem_append, List.mem_append] at hx
    rcases hx with (hx | hx) | hx
    · rcases List.mem_cons.mp hx with hx | hx
      · simp [hx]
      · simp only [List.append_eq, List.mem_append] at hx
        rcases hx with (hx | hx) | hx
        · exact escapeList_ne_newline _ x hx
        · fin_cases hx <;> decide
        · exact h (k, v) (List.mem_cons_self _ rest) x hx
    · split at hx
      · simp at hx
      · fin_cases hx <;> decide
    · exact ih (fun kv2 hkv2 => h kv2 (List.mem_cons_of_mem _ hkv2)) x hx

theorem dumpsChars_ne_newline_fuel (fuel : Nat) :
    ∀ j : Json, sizeOf j ≤ fuel → ∀ x ∈ dumpsChars j, x ≠ '\n' := by
  induction fuel with
  | zero =>
    intro j hj
    exfalso
    cases j <;> simp_all <;> omega
  | succ fuel ih =>
    intro j hj x hx
    cases j with
    | null => rw [dumpsChars] at hx; fin_cases hx <;> decide
    | bool b =>
      rw [dumpsChars] at hx
      cases b <;> simp only [if_true, if_false, Bool.false_eq_true] at hx <;>
        fin_cases hx <;> decide
    | num i => rw [dumpsChars] at hx; exact intChars_ne_newline i x hx
    | str s =>
      rw [dumpsChars] at hx
      rcases List.mem_cons.mp hx with hx | hx
      · simp [hx]
      · simp only [List.append_eq, List.mem_append] at hx
        rcases hx with hx | hx
        · exact escapeList_ne_newline _ x hx
        · fin_cases hx <;> decide
    | arr xs =>
      rw [dumpsChars] at hx
      rcases List.mem_cons.mp hx with hx | hx
      · simp [hx]
      · simp only [List.append_eq, List.mem_append] at hx
        rcases hx with hx | hx
        · refine dumpsArr_ne_newline xs (fun j2 hj2 => ih j2 ?_) x hx
          have h1 : sizeOf j2 < sizeOf xs := List.sizeOf_lt_of_mem hj2
          have h2 : sizeOf (Json.arr xs) = 1 + sizeOf xs := by simp
          omega
        · fin_cases hx <;> decide
    | obj fs =>
      rw [dumpsChars] at hx
      rcases List.mem_cons.mp hx with hx | hx
      · simp [hx]
      · simp only [List.append_eq, List.mem_append] at hx
        rcases hx with hx | hx
        · refine dumpsObj_ne_newline fs (fun kv hkv => ih kv.2 ?_) x hx
          have h1 : sizeOf kv < sizeOf fs := List.sizeOf_lt_of_mem hkv
          have h2 : sizeOf (Json.obj fs) = 1 + sizeOf fs := by simp
          have h3 : sizeOf kv.2 < sizeOf kv := by
            obtain ⟨a, b⟩ := kv; simp
          omega
        · fin_cases hx <;> decide

/-- The serializer never emits a raw newline: every newline inside a
string value is escaped, so each serialized request is a single line. -/
theorem dumpsChars_ne_newline (j : Json) : ∀ x ∈ dumpsChars j, x ≠ '\n' :=
  dumpsChars_ne_newline_fuel (sizeOf j) j (Nat.le_refl _)

@[simp]
theorem sendToPid_tools (c : ClientState) (pid : Nat) (r : Json) :
    (sendToPid c pid r).tools = c.tools := rfl

@[simp]
theorem sendToPid_processes (c : ClientState) (pid : Nat) (r : Json) :
    (sendToPid c pid r).processes = c.processes := rfl

@[simp]
theorem sendToPid_servers (c : ClientState) (pid : Nat) (r : Json) :
    (sendToPid c pid r).servers = c.servers := rfl

@[simp]
theorem readFromPid_snd_tools (c : ClientState) (pid : Nat) :
    (readFromPid c pid).2.tools = c.tools := by
  unfold readFromPid
  split <;> rfl

@[simp]
theorem readFromPid_snd_processes (c : ClientState) (pid : Nat) :
    (readFromPid c pid).2.processes = c.processes := by
  unfold readFromPid
  split <;> rfl

@[simp]
theorem readFromPid_snd_servers (c : ClientState) (pid : Nat) :
    (readFromPid c pid).2.servers = c.servers := by
  unfold readFromPid
  split <;> rfl

/-- C10: `call_tool` never modifies the tool registry or the process
table: whether it returns a result or raises, the `tools` and
`processes` dicts of the resulting client state are the ones it started
with (only the owning process's pipes are touched). -/
theorem call_tool_preserves_tables (c : ClientState) (tool_name : String)
    (parameters : Json) (call_id trace_id : String) :
    (MCPServerClient.call_tool c tool_name parameters call_id trace_id).2.tools = c.tools
  ∧ (MCPServerClient.call_tool c tool_name parameters call_id trace_id).2.processes
      = c.processes := by
  unfold MCPServerClient.call_tool
  constructor <;>
  · split
    · rfl
    · split
      · rfl
      · dsimp only
        split
        · simp
        · split
          · split <;> simp
          · split <;> simp

/-- C9: every outbound request is written as exactly one line — the
serialization of a `jsonrpc`/`id`(int)/`method`/`params` object followed
by a single terminating newline (the serialized text itself contains no
newline), and the `tools/call` params object is exactly
`name`/`arguments`. -/
theorem outbound_request_wire_format :
    (∀ (p : ProcessPipes) (request : Json),
        (sendRequest p request).stdinWrites = p.stdinWrites ++ [dumps request ++ "\n"])
  ∧ (∀ request : Json, ((dumps request ++ "\n").toList.count '\n') = 1)
  ∧ (∀ (tool_name : String) (parameters : Json),
        jsonGetD (callToolRequest tool_name parameters) "jsonrpc" = .str "2.0"
      ∧ jsonGetD (callToolRequest tool_name parameters) "id" = .num 3
      ∧ jsonGetD (callToolRequest tool_name parameters) "method" = .str "tools/call"
      ∧ jsonGetD (callToolRequest tool_name parameters) "params"
          = .obj [("name", .str tool_name), ("arguments", parameters)])
  ∧ jsonGetD initRequest "jsonrpc" = .str "2.0"
  ∧ jsonGetD initRequest "id" = .num 1
  ∧ jsonGetD initRequest "method" = .str "initialize"
  ∧ jsonGetD toolsListRequest "jsonrpc" = .str "2.0"
  ∧ jsonGetD toolsListRequest "id" = .num 2
  ∧ jsonGetD toolsListRequest "method" = .str "tools/list" := by
  refine ⟨fun p request => rfl, fun request => ?_,
    fun tool_name parameters => ⟨rfl, rfl, rfl, rfl⟩, rfl, rfl, rfl, rfl, rfl, rfl⟩
  have h : (dumps request ++ "\n").toList = dumpsChars request ++ ['\n'] := by
    simp [dumps, String.toList, String.data_append, List.asString]
  rw [h, List.count_append]
  have h0 : (dumpsChars request).count '\n' = 0 := by
    rw [List.count_eq_zero]
    intro hmem
    exact dumpsChars_ne_newline request '\n' hmem rfl
  rw [h0]
  rfl

/-- C4: a tool name absent from the registry makes `call_tool` raise
`Tool ... not found` before any process interaction — the returned state
is the input state, unchanged, so no bytes were written to any stdin and
no stdout was consumed. -/
theorem call_tool_unknown_tool (c : ClientState) (tool_name : String)
    (parameters : Json) (call_id trace_id : String)
    (h : dictLookup c.tools tool_name = none) :
    MCPServerClient.call_tool c tool_name parameters call_id trace_id
      = (.error (.toolNotFound tool_name), c) := by
  unfold MCPServerClient.call_tool
  rw [h]

/-- C4 witness: calling the unknown tool `"unknown"` on a fresh client
raises tool-not-found and leaves the state untouched. -/
theorem call_tool_unknown_tool_witness :
    dictLookup MCPServerClient.new.tools "unknown" = none
  ∧ MCPServerClient.call_tool MCPServerClient.new "unknown" (.obj []) "c1" "t1"
      = (.error (.toolNotFound "unknown"), MCPServerClient.new) :=
  ⟨rfl, call_tool_unknown_tool MCPServerClient.new "unknown" (.obj []) "c1" "t1" rfl⟩

/-- C1 (amended): the JSON-RPC id carried by every dispatched
`tools/call` request is the hardcoded literal 3, for every tool name and
arguments — so ids of calls in flight on the same server are never
distinct. -/
theorem call_tool_request_id_constant (tool_name : String) (parameters : Json) :
    jsonGetD (callToolRequest tool_name parameters) "id" = .num 3 := rfl

/-- C1 counterexample: two different tool calls dispatched to a server
carry the same request id (both 3), refuting the claim that ids of
outstanding calls are distinct. -/
theorem call_tool_request_id_collision :
    jsonGetD (callToolRequest "search" (.obj [])) "id"
      = jsonGetD (callToolRequest "nutrition" (.obj [("q", .str "ramen")])) "id"
  ∧ jsonGetD (callToolRequest "search" (.obj [])) "id" = .num 3 := ⟨rfl, rfl⟩

/-- Stdout script of a well-behaved server: a successful `initialize`
response followed by a `tools/list` response exposing one tool named `n`. -/
def oneToolScript (n : String) : List (Option Json) :=
  [some (.obj [("result", .obj [("ok", .bool true)])]),
   some (.obj [("result", .obj [("tools", .arr [.obj [("name", .str n)]])])])]

/-- C2 (amended): registration is last-writer-wins — when a server's
handshake registers a tool name, the registry maps that name to the new
entry afterwards, regardless of any earlier registration of the same
name by another server (the earlier entry is silently overwritten; no
conflict is recorded anywhere in the state). -/
theorem register_tool_overwrites (c : ClientState) (pid : Nat) (serverB n : String)
    (hn : n ≠ "") :
    dictLookup (MCPServerClient.initialize_server
        { c with heap := dictSet c.heap pid ⟨[], oneToolScript n⟩ } serverB pid).tools n
      = some ⟨serverB, n, .str "", .obj []⟩ := by
  simp [MCPServerClient.initialize_server, oneToolScript, sendToPid, readFromPid,
        sendRequest, dictLookup_dictSet_self, jsonTruthy, hasKey, jsonGetD,
        dictLookup, registerLoop, hn, dictLookup_dictSet_self]

/-- C2 witness for the amended claim: a client whose registry already
maps `"search"` to a `serverA` entry ends up, after `serverB`'s
handshake registers `"search"` too, with the `serverB` entry. -/
theorem register_tool_overwrites_witness :
    ("search" : String) ≠ ""
  ∧ dictLookup (MCPServerClient.initialize_server
        { tools := [("search", ⟨"serverA", "search", .str "", .obj []⟩)],
          heap := dictSet [] 0 ⟨[], oneToolScript "search"⟩ } "serverB" 0).tools "search"
      = some ⟨"serverB", "search", .str "", .obj []⟩ :=
  ⟨by decide,
   register_tool_overwrites
     { tools := [("search", ⟨"serverA", "search", .str "", .obj []⟩)], heap := [] }
     0 "serverB" "search" (by decide)⟩

/-- Client state after two servers, `serverA` then `serverB`, have both
registered a tool named `"search"` during startup. -/
def twoServerRun : ClientState :=
  match startAll MCPServerClient.new
      [("serverA", ⟨true, oneToolScript "search"⟩),
       ("serverB", ⟨true, oneToolScript "search"⟩)] with
  | .ok c => c
  | .error c => c

/-- C2 counterexample: after `serverA` and then `serverB` both register
`"search"`, the registry maps `"search"` to `serverB` — the LATER
registration won and `serverA`'s entry was silently overwritten,
refuting first-registration-wins. -/
theorem duplicate_tool_last_writer_wins :
    dictLookup twoServerRun.tools "search" = some ⟨"serverB", "search", .str "", .obj []⟩
  ∧ (dictLookup twoServerRun.tools "search").map ToolInfo.server = some "serverB" :=
  ⟨rfl, rfl⟩

/-- C5 (amended): the code enforces no timeout and keeps no pending-call
table; a call whose server produces no response (its stream ends) makes
`call_tool` raise the generic `No response from tool call` exception —
never any timeout error. -/
theorem call_tool_no_response (c : ClientState) (tool_name : String)
    (parameters : Json) (call_id trace_id : String) (info : ToolInfo) (pid : Nat)
    (w : List String)
    (h1 : dictLookup c.tools tool_name = some info)
    (h2 : dictLookup c.processes info.server = some pid)
    (h3 : dictLookup c.heap pid = some ⟨w, []⟩) :
    (MCPServerClient.call_tool c tool_name parameters call_id trace_id).1
      = .error .noResponse := by
  unfold MCPServerClient.call_tool
  simp only [h1, h2]
  simp [sendToPid, readFromPid, h3, dictLookup_dictSet_self, sendRequest]

/-- Client with one registered tool whose server never replies. -/
def noReplyClient : ClientState :=
  { tools := [("search", ⟨"mock", "search", .str "", .obj []⟩)],
    processes := [("mock", 0)],
    heap := [(0, ⟨[], []⟩)] }

/-- C5 witness: on the concrete silent server, the call raises the
no-response exception. -/
theorem call_tool_no_response_witness :
    dictLookup noReplyClient.tools "search" = some ⟨"mock", "search", .str "", .obj []⟩
  ∧ dictLookup noReplyClient.processes "mock" = some 0
  ∧ dictLookup noReplyClient.heap 0 = some ⟨[], []⟩
  ∧ (MCPServerClient.call_tool noReplyClient "search" (.obj []) "c1" "t1").1
      = .error .noResponse :=
  ⟨rfl, rfl, rfl,
   call_tool_no_response noReplyClient "search" (.obj []) "c1" "t1"
     ⟨"mock", "search", .str "", .obj []⟩ 0 [] rfl rfl rfl⟩

/-- C5 counterexample: a call whose server sends no response does not
return any timeout error — it raises the generic exception whose text is
`No response from tool call`, and the code has no pending-call table to
remove anything from. -/
theorem call_tool_no_timeout :
    (MCPServerClient.call_tool noReplyClient "search" (.obj []) "c2" "t2").1
      = .error .noResponse
  ∧ errMsg .noResponse = "No response from tool call" := ⟨rfl, rfl⟩

/-- C6 (amended): a successful call returns the server's `result` object
extended with a `_provenance` object of exactly the fields `trace_id`
(the uuid minted for this call), `server` (the registry's owning server
of the tool) and `tool` (the requested name) — there is no elapsed-time
field. -/
theorem call_tool_success_provenance (c : ClientState) (tool_name : String)
    (parameters : Json) (call_id trace_id : String) (info : ToolInfo) (pid : Nat)
    (w : List String) (rf resF : List (String × Json)) (rest : List (Option Json))
    (h1 : dictLookup c.tools tool_name = some info)
    (h2 : dictLookup c.processes info.server = some pid)
    (h3 : dictLookup c.heap pid = some ⟨w, some (.obj rf) :: rest⟩)
    (h4 : dictLookup rf "result" = some (.obj resF)) :
    (MCPServerClient.call_tool c tool_name parameters call_id trace_id).1
      = .ok (.obj (dictSet resF "_provenance"
          (.obj [("trace_id", .str trace_id), ("server", .str info.server),
                 ("tool", .str tool_name)]))) := by
  have hrf : rf.isEmpty = false := by
    cases rf with
    | nil => simp [dictLookup] at h4
    | cons a l => rfl
  unfold MCPServerClient.call_tool
  simp only [h1, h2]
  simp [sendToPid, readFromPid, h3, dictLookup_dictSet_self, sendRequest,
        jsonTruthy, hasKey, jsonGetD, h4, hrf]

/-- Client with one registered tool whose server answers the call with
`\x7b"result": \x7b"items": []\x7d\x7d`. -/
def successClient : ClientState :=
  { tools := [("search", ⟨"mock", "search", .str "", .obj []⟩)],
    processes := [("mock", 0)],
    heap := [(0, ⟨[], [some (.obj [("result", .obj [("items", .arr [])])])]⟩)] }

/-- C6 witness: the concrete successful call carries the three-field
provenance with the minted trace id, owning server and requested tool. -/
theorem call_tool_success_provenance_witness :
    dictLookup successClient.tools "search" = some ⟨"mock", "search", .str "", .obj []⟩
  ∧ dictLookup successClient.processes "mock" = some 0
  ∧ dictLookup successClient.heap 0
      = some ⟨[], [some (.obj [("result", .obj [("items", .arr [])])])]⟩
  ∧ dictLookup [("items", Json.arr [])] "result" = none
  ∧ (MCPServerClient.call_tool successClient "search" (.obj []) "c1" "T").1
      = .ok (.obj (dictSet [("items", Json.arr [])] "_provenance"
          (.obj [("trace_id", .str "T"), ("server", .str "mock"),
                 ("tool", .str "search")]))) :=
  ⟨rfl, rfl, rfl, rfl,
   call_tool_success_provenance successClient "search" (.obj []) "c1" "T"
     ⟨"mock", "search", .str "", .obj []⟩ 0 []
     [("result", .obj [("items", .arr [])])] [("items", .arr [])] [] rfl rfl rfl rfl⟩

/-- C6 counterexample: the provenance attached to a successful result
consists of exactly `trace_id`, `server` and `tool` — it has no
elapsed-duration field, refuting the claimed four-field provenance. -/
theorem provenance_lacks_elapsed :
    (MCPServerClient.call_tool successClient "search" (.obj []) "c3" "T").1.map
        (fun r => (jsonGetD r "_provenance", hasKey (jsonGetD r "_provenance") "elapsed"))
      = .ok (.obj [("trace_id", .str "T"), ("server", .str "mock"),
                   ("tool", .str "search")], false) := rfl

/-- C8: `shutdown` is idempotent — a second shutdown from the
post-shutdown state is a no-op (and, being total, raises nothing) — and
after either the first or the second shutdown the tool catalogue is
empty. -/
theorem shutdown_idempotent (st : ServiceState) :
    MCPService.shutdown (MCPService.shutdown st) = MCPService.shutdown st
  ∧ MCPService.get_tools_for_openai (MCPService.shutdown st) = []
  ∧ MCPService.get_tools_for_openai (MCPService.shutdown (MCPService.shutdown st)) = [] := by
  obtain ⟨client, initialized⟩ := st
  obtain ⟨sv, t, pr, h, np⟩ := client
  exact ⟨rfl, rfl, rfl⟩

theorem startAll_ok (c : ClientState) (config : List (String × ServerBehavior))
    (hall : ∀ e ∈ config, e.2.spawns = true) : ∃ c1, startAll c config = .ok c1 := by
  induction config generalizing c with
  | nil => exact ⟨c, rfl⟩
  | cons e rest ih =>
    obtain ⟨server_name, b⟩ := e
    have hb : b.spawns = true := hall (server_name, b) (List.mem_cons_self _ _)
    unfold startAll MCPServerClient.start_server
    rw [hb]
    simp only [if_true]
    exact ih _ (fun e2 he2 => hall e2 (List.mem_cons_of_mem _ he2))

/-- C3 (amended): a handshake failure is contained per-server — a server
that spawns but yields no handshake response produces no exception and
contributes zero tools — and when every configured server spawns,
service initialization completes without any escaping error; a spawn
failure, by contrast, is re-raised by `start_server` and aborts
initialization of the remaining servers (see the counterexample). -/
theorem handshake_contained (c : ClientState) (server_name : String)
    (b : ServerBehavior) (st : ServiceState)
    (config : List (String × ServerBehavior))
    (hb : b.spawns = true) (hempty : b.stdout = [])
    (hall : ∀ e ∈ config, e.2.spawns = true) :
    (∃ c1, MCPServerClient.start_server c server_name b = .ok c1 ∧ c1.tools = c.tools)
  ∧ (∃ st1, MCPService.initializeServers st config = .ok st1) := by
  constructor
  · unfold MCPServerClient.start_server
    rw [hb]
    simp only [if_true]
    refine ⟨_, rfl, ?_⟩
    simp [MCPServerClient.initialize_server, hempty, sendToPid, readFromPid,
          dictLookup_dictSet_self, sendRequest]
  · unfold MCPService.initializeServers
    by_cases hinit : st.initialized
    · rw [if_pos hinit]; exact ⟨st, rfl⟩
    · rw [if_neg hinit]
      obtain ⟨c1, hc1⟩ := startAll_ok st.client config hall
      rw [hc1]
      exact ⟨_, rfl⟩

/-- C3 witness: a concrete server that spawns but never answers the
handshake is tolerated with zero tools, and a two-server configuration
whose spawns both succeed initializes without error. -/
theorem handshake_contained_witness :
    (true : Bool) = true
  ∧ ([] : List (Option Json)) = []
  ∧ (∀ e ∈ [("m1", (⟨true, []⟩ : ServerBehavior)),
            ("m2", (⟨true, oneToolScript "t"⟩ : ServerBehavior))], e.2.spawns = true)
  ∧ ((∃ c1, MCPServerClient.start_server MCPServerClient.new "mute" ⟨true, []⟩ = .ok c1
        ∧ c1.tools = MCPServerClient.new.tools)
    ∧ (∃ st1, MCPService.initializeServers MCPService.new
          [("m1", ⟨true, []⟩), ("m2", ⟨true, oneToolScript "t"⟩)] = .ok st1)) :=
  ⟨rfl, rfl, by intro e he; fin_cases he <;> rfl,
   handshake_contained MCPServerClient.new "mute" ⟨true, []⟩ MCPService.new
     [("m1", ⟨true, []⟩), ("m2", ⟨true, oneToolScript "t"⟩)] rfl rfl
     (by intro e he; fin_cases he <;> rfl)⟩

/-- C3 counterexample: with a first server whose spawn fails and a
healthy second server, the exception escapes the service-level
initialization (the `.error` branch), and the resulting state shows the
second server was never attempted — no process and no tool was ever
recorded, refuting both no-error-escapes and
every-remaining-server-attempted. -/
theorem spawn_failure_aborts_initialization :
    MCPService.initializeServers MCPService.new
        [("badserver", ⟨false, []⟩), ("goodserver", ⟨true, oneToolScript "t"⟩)]
      = .error MCPService.new
  ∧ MCPService.new.client.processes = []
  ∧ MCPService.new.client.tools = [] := ⟨rfl, rfl, rfl⟩

/-- C7 (amended): after `shutdown()`, a subsequent `get_tool_response`
does not return any server-unavailable error — because `initialized` is
false again, it re-runs the service initialization, restarting every
configured server, and then routes the call as usual, returning a
structured result with the service re-initialized. -/
theorem post_shutdown_call_reinitializes (st : ServiceState)
    (config : List (String × ServerBehavior)) (tool_name : String)
    (parameters : Json) (call_id trace_id : String)
    (hall : ∀ e ∈ config, e.2.spawns = true) :
    ∃ r st1, MCPService.get_tool_response (MCPService.shutdown st) config tool_name
        parameters call_id trace_id = .ok (r, st1) ∧ st1.initialized = true := by
  obtain ⟨c1, hc1⟩ := startAll_ok (MCPServerClient.shutdown st.client) config hall
  unfold MCPService.get_tool_response MCPService.initializeServers MCPService.shutdown
  dsimp only
  rw [hc1]
  simp only [Bool.false_eq_true, if_false]
  rcases hcall : MCPServerClient.call_tool c1 tool_name parameters call_id trace_id
    with ⟨res, c2⟩
  cases res with
  | ok v => exact ⟨v, ⟨c2, true⟩, rfl, rfl⟩
  | error e => exact ⟨.obj [("error", .str (errMsg e))], ⟨c2, true⟩, rfl, rfl⟩

/-- Configuration with one healthy server exposing `"search"` and
answering one tool call. -/
def mockConfig : List (String × ServerBehavior) :=
  [("mock", ⟨true, oneToolScript "search"
      ++ [some (.obj [("result", .obj [("found", .bool true)])])]⟩)]

/-- C7 witness: on the concrete one-server configuration, the
post-shutdown call returns a structured result with the service
re-initialized. -/
theorem post_shutdown_call_reinitializes_witness :
    (∀ e ∈ mockConfig, e.2.spawns = true)
  ∧ (∃ r st1, MCPService.get_tool_response (MCPService.shutdown MCPService.new)
        mockConfig "search" (.obj []) "c1" "T" = .ok (r, st1)
      ∧ st1.initialized = true) :=
  ⟨by intro e he; fin_cases he <;> rfl,
   post_shutdown_call_reinitializes MCPService.new mockConfig "search" (.obj [])
     "c1" "T" (by intro e he; fin_cases he <;> rfl)⟩

/-- C7 counterexample: a `callTool` issued after `shutdown()` does not
return a server-unavailable error — the service restarts the configured
server (`initialized` is true again afterwards) and routes the call to
it, returning the tool's result complete with provenance naming the
restarted server. -/
theorem post_shutdown_call_routed :
    (MCPService.get_tool_response (MCPService.shutdown MCPService.new) mockConfig
        "search" (.obj []) "c1" "T").toOption.map
        (fun p => (p.2.initialized, jsonGetD p.1 "_provenance"))
      = some (true, .obj [("trace_id", .str "T"), ("server", .str "mock"),
                          ("tool", .str "search")]) := rfl
